import Mathlib

/-!
Verification of the `rust-try-catch` exception-dispatch engine.

Shallow embedding of `src/rust-try-catch/src/lib.rs`:
the carrier `Thrown`, the `throw` primitive, the `try_catch!` dispatcher
(typed catch clauses, catch-all exception clause, catch-panic clause,
finally guard, `__count_blocks` arity check) and the boundary driver
`__throw_driver`.

Dynamically typed boxed values (`Box<dyn Any + Send>`) are embedded as
`DynBox`: a runtime type identity (`tyId`, standing for Rust's `TypeId`)
together with a value representation. `Box::downcast::<T>` succeeds exactly
when the box's runtime type identity equals the target type, returning the
contained value; on failure it returns the original box unchanged.

The unwind signal carried by `std::panic::catch_unwind` is either a
`Thrown` carrier (produced by `throw`) or any other payload — an opaque
native fault; `panic_payload.downcast::<Thrown>()` is the discriminant,
embedded as the two constructors of `PanicPayload`.

Execution of the construct is embedded as a function from the construct
description to an outcome (a value, or a re-raised unwind via
`resume_unwind`) together with a trace of events recording which bodies
ran and in which order, so that "executes", "executes exactly once" and
"never executes" are statable.
-/

namespace RustTryCatch

/-- A `Box<dyn Any + Send>`: a runtime type identity plus the value. -/
structure DynBox where
  tyId : Nat
  val : Nat
deriving DecidableEq

/-- `Box::<dyn Any + Send>::downcast::<T>`: succeeds exactly when the boxed
value's runtime type is `T` (here a type identity `ty`), yielding the
contained value; on failure the original box is returned in the `Err`. -/
def DynBox.downcast (b : DynBox) (ty : Nat) : Except DynBox Nat :=
  if b.tyId = ty then Except.ok b.val else Except.error b

/-- The carrier `Thrown` (src/rust-try-catch/src/lib.rs, lines 295-299):
a type-erased payload `source`, the payload's `type_name` and the
`backtrace` captured at throw time. -/
structure Thrown where
  source : DynBox
  type_name : String
  backtrace : String
deriving DecidableEq

/-- The unwind signal observed by `catch_unwind`: either the carrier
`Thrown` (a deliberate `throw`) or any other panic payload — an opaque
native fault. The constructor tag embeds the result of
`panic_payload.downcast::<Thrown>()`. -/
inductive PanicPayload where
  | thrown (t : Thrown)
  | fault (p : DynBox)
deriving DecidableEq

/-- The behaviour of executing a block of code under unwind interception:
it completes normally with a value, or it unwinds with a panic payload. -/
inductive TryResult (α : Type) where
  | ok (v : α)
  | panicked (p : PanicPayload)
deriving DecidableEq

/-- `throw` (src/rust-try-catch/src/lib.rs, lines 305-311): wraps the value
`x` into a `Thrown` carrier — recording `std::any::type_name::<T>()`
(a function of the value's static type, passed here as `tyName`) and the
backtrace captured at the call site (`bt`) — and resumes unwinding with it.
It never produces a normal value, so its behaviour as a block of code is
always `TryResult.panicked`. -/
def throw (α : Type) (x : DynBox) (tyName bt : String) : TryResult α :=
  TryResult.panicked (PanicPayload.thrown ⟨x, tyName, bt⟩)

/-- One typed catch clause `catch (pat => Ty) { body }`: the declared
type's runtime identity and the handler body with the pattern bound. -/
structure CatchClause (α : Type) where
  ty : Nat
  handler : Nat → α

/-- The shape of one `try_catch!` construct: the try body's behaviour, the
typed catch clauses in declaration order, the optional catch-all exception
clause, the optional catch-panic clause, and whether a finally block is
present. -/
structure TryCatch (α : Type) where
  tryBody : TryResult α
  catches : List (CatchClause α)
  catchAll : Option (DynBox → α)
  catchPanic : Option (DynBox → α)
  finallyBlock : Bool

/-- `__count_blocks` (src/rust-try-catch/src/lib.rs, lines 356-361) applied
to the blocks the macro passes it: one for the try block, one per typed
catch clause, one for each of the optional catch-all, catch-panic and
finally blocks. -/
def __count_blocks {α : Type} (tc : TryCatch α) : Nat :=
  1 + tc.catches.length
    + (if tc.catchAll.isSome then 1 else 0)
    + (if tc.catchPanic.isSome then 1 else 0)
    + (if tc.finallyBlock then 1 else 0)

/-- Trace events recording which bodies of a construct ran, in order. -/
inductive Event where
  | tryStarted
  | typedCatch (i : Nat)
  | catchAllRun
  | catchPanicRun
  | finallyRun
deriving DecidableEq

/-- Result of a construct: a value, or a continued unwind
(`resume_unwind`). -/
inductive Outcome (α : Type) where
  | value (v : α)
  | reraise (p : PanicPayload)
deriving DecidableEq

/-- The typed-clause trial loop (src/rust-try-catch/src/lib.rs,
lines 252-263): for each clause in declaration order, attempt
`exception.source.downcast::<Ty>()`; on `Ok`, the payload is moved out,
bound, and the clause body's result is returned together with the clause's
index and the bound value; on `Err`, the payload box is written back into
the carrier (`exception.source = other_error`) and the next clause is
tried. Returns the match result and the carrier in its final state. -/
def runTypedClauses {α : Type} (cs : List (CatchClause α)) (exc : Thrown)
    (i : Nat) : Option (α × Nat × Nat) × Thrown :=
  match cs with
  | [] => (none, exc)
  | c :: rest =>
    match exc.source.downcast c.ty with
    | Except.ok v => (some (c.handler v, i, v), exc)
    | Except.error b => runTypedClauses rest { exc with source := b } (i + 1)

/-- The dispatch logic of `try_catch!` without the finally guard and the
arity check (src/rust-try-catch/src/lib.rs, lines 236-273): run the try
body under `catch_unwind`; on normal completion its value is the result;
on unwind, `downcast::<Thrown>` classifies the payload — a non-carrier
goes to the catch-panic clause if present and is otherwise re-raised
unchanged; a carrier goes through the typed clauses in order, then the
catch-all clause if present, and is otherwise re-raised. -/
def try_catch_core {α : Type} (tc : TryCatch α) : Outcome α × List Event :=
  match tc.tryBody with
  | TryResult.ok v => (Outcome.value v, [Event.tryStarted])
  | TryResult.panicked (PanicPayload.fault d) =>
    match tc.catchPanic with
    | some h => (Outcome.value (h d), [Event.tryStarted, Event.catchPanicRun])
    | none => (Outcome.reraise (PanicPayload.fault d), [Event.tryStarted])
  | TryResult.panicked (PanicPayload.thrown exc) =>
    match runTypedClauses tc.catches exc 0 with
    | (some (res, i, _), _) =>
      (Outcome.value res, [Event.tryStarted, Event.typedCatch i])
    | (none, exc2) =>
      match tc.catchAll with
      | some h =>
        (Outcome.value (h exc2.source), [Event.tryStarted, Event.catchAllRun])
      | none => (Outcome.reraise (PanicPayload.thrown exc2), [Event.tryStarted])

/-- The whole `try_catch!` construct (src/rust-try-catch/src/lib.rs,
lines 210-276): first the `const` block evaluates `__count_blocks` and
fails construction when fewer than two blocks are present — before
anything runs; otherwise the finally guard is registered (a drop guard,
so its body runs when control leaves the scope, strictly after the
outcome or the re-raise decision is fixed, on every path) and the
dispatch logic runs. -/
def try_catch {α : Type} (tc : TryCatch α) :
    Except String (Outcome α × List Event) :=
  if __count_blocks tc < 2 then
    Except.error "Using try \x7b /*code*/ \x7d is equivalent to a no-op"
  else
    let r := try_catch_core tc
    Except.ok (r.1, r.2 ++ if tc.finallyBlock then [Event.finallyRun] else [])

/-- Result of one invocation of the boundary driver `__throw_driver`:
a normal value, a new fatal panic with a diagnostic message
(`panic!("unhandled exception {type_name} at {backtrace}")`), or the
original unwind payload resumed unchanged (`resume_unwind(panic)`). -/
inductive DriverResult (α : Type) where
  | value (v : α)
  | fatal (msg : String)
  | reraise (p : PanicPayload)
deriving DecidableEq

/-- The hit error branch of an unchecked operation inside
`__throw_driver`: `main.take().unwrap_unchecked()` on an empty slot,
`assert_unchecked(output.is_none())` on a filled slot, or
`output.unwrap_unchecked()` on an empty slot. Reaching any of these is
undefined behaviour in the source. -/
inductive UncheckedMiss where
  | takeNoneHit
  | assertFailedHit
  | unwrapNoneHit
deriving DecidableEq

/-- The closure passed to `inner` by `__throw_driver`
(src/rust-try-catch/src/lib.rs, lines 340-348), acting on the two slots
`main` and `output`: take `main` out of its slot (error branch if the slot
is already empty), check `output` is still unfilled, run the taken closure
and fill `output` with its result if it completes normally. Returns the
new slot states, the unwind payload if the body panicked, and how many
times `main` was invoked. -/
def driverClosureStep {α : Type} (mainSlot : Option (TryResult α))
    (output : Option α) :
    Except UncheckedMiss
      (Option (TryResult α) × Option α × Option PanicPayload × Nat) :=
  match mainSlot with
  | none => Except.error UncheckedMiss.takeNoneHit
  | some body =>
    match output with
    | some _ => Except.error UncheckedMiss.assertFailedHit
    | none =>
      match body with
      | TryResult.ok v => Except.ok (none, some v, none, 1)
      | TryResult.panicked p => Except.ok (none, none, some p, 1)

/-- `__throw_driver` (src/rust-try-catch/src/lib.rs, lines 325-352): run
the wrapped closure once through `inner`'s `catch_unwind`; if the body
completed normally, return the filled output slot
(`output.unwrap_unchecked()`, error branch if empty); if the intercepted
payload downcasts to `Thrown`, raise a new fatal panic whose message
carries the carrier's `type_name` and `backtrace`; otherwise resume the
original payload unchanged. Alongside the result, the number of times the
wrapped closure was invoked is returned. -/
def __throw_driver {α : Type} (body : TryResult α) :
    Except UncheckedMiss (DriverResult α × Nat) :=
  match driverClosureStep (some body) none with
  | Except.error e => Except.error e
  | Except.ok (_, output, p?, n) =>
    match p? with
    | some (PanicPayload.thrown t) =>
      Except.ok (DriverResult.fatal
        ("unhandled exception " ++ t.type_name ++ " at " ++ t.backtrace), n)
    | some (PanicPayload.fault d) =>
      Except.ok (DriverResult.reraise (PanicPayload.fault d), n)
    | none =>
      match output with
      | none => Except.error UncheckedMiss.unwrapNoneHit
      | some v => Except.ok (DriverResult.value v, n)

/-! ### Helper lemmas about the typed-clause trial loop -/

/-- A failed downcast writes the very same box back into the carrier, so
the trial loop never changes the carrier it threads through: the carrier
returned by `runTypedClauses` is the one it was given. -/
theorem runTypedClauses_carrier {α : Type} (cs : List (CatchClause α))
    (exc : Thrown) (i : Nat) : (runTypedClauses cs exc i).2 = exc := by
  induction cs generalizing exc i with
  | nil => rfl
  | cons c rest ih =>
    show (match exc.source.downcast c.ty with
      | Except.ok v => (some (c.handler v, i, v), exc)
      | Except.error b => runTypedClauses rest { exc with source := b } (i + 1)).2 = exc
    unfold DynBox.downcast
    by_cases h : exc.source.tyId = c.ty
    · simp [h]
    · simpa [h] using ih { exc with source := exc.source } (i + 1)

/-- The trial loop reports no match exactly when no clause's declared type
equals the payload's runtime type. -/
theorem runTypedClauses_none_iff {α : Type} (cs : List (CatchClause α))
    (exc : Thrown) (i : Nat) :
    (runTypedClauses cs exc i).1 = none ↔
      ∀ c ∈ cs, c.ty ≠ exc.source.tyId := by
  induction cs generalizing exc i with
  | nil => simp [runTypedClauses]
  | cons c rest ih =>
    show (match exc.source.downcast c.ty with
      | Except.ok v => (some (c.handler v, i, v), exc)
      | Except.error b => runTypedClauses rest { exc with source := b } (i + 1)).1
        = none ↔ _
    unfold DynBox.downcast
    by_cases h : exc.source.tyId = c.ty
    · simp [h]
    · have h2 := ih { exc with source := exc.source } (i + 1)
      simp only [List.mem_cons] at *
      constructor
      · intro h3 d hd
        rcases hd with hd | hd
        · subst hd; simpa using fun h4 => h (h4.symm)
        · exact (h2.mp (by simpa [h] using h3)) d hd
      · intro h3
        simpa [h] using h2.mpr (fun d hd => h3 d (Or.inr hd))

/-- When the clause at index `i` is the first whose declared type equals
the payload's runtime type, the trial loop runs exactly that clause's
handler on the payload's value, reporting index `k + i` (where `k` is the
index offset) and the bound value. -/
theorem runTypedClauses_first_match {α : Type} (cs : List (CatchClause α))
    (exc : Thrown) (k i : Nat) (h : i < cs.length)
    (hm : (cs.get ⟨i, h⟩).ty = exc.source.tyId)
    (hfst : ∀ j (hj : j < i), (cs.get ⟨j, Nat.lt_trans hj h⟩).ty ≠ exc.source.tyId) :
    (runTypedClauses cs exc k).1 =
      some ((cs.get ⟨i, h⟩).handler exc.source.val, k + i, exc.source.val) := by
  induction cs generalizing exc k i with
  | nil => exact absurd h (Nat.not_lt_zero i)
  | cons c rest ih =>
    show (match exc.source.downcast c.ty with
      | Except.ok v => (some (c.handler v, k, v), exc)
      | Except.error b => runTypedClauses rest { exc with source := b } (k + 1)).1 = _
    unfold DynBox.downcast
    match i with
    | 0 =>
      have hc : c.ty = exc.source.tyId := hm
      simp [hc]
    | Nat.succ j =>
      have hc : c.ty ≠ exc.source.tyId := hfst 0 (Nat.succ_pos j)
      have hj : j < rest.length := Nat.lt_of_succ_lt_succ h
      have hm' : (rest.get ⟨j, hj⟩).ty = exc.source.tyId := hm
      have hfst' : ∀ m (hmlt : m < j),
          (rest.get ⟨m, Nat.lt_trans hmlt hj⟩).ty ≠ exc.source.tyId :=
        fun m hmlt => hfst (m + 1) (Nat.succ_lt_succ hmlt)
      have := ih { exc with source := exc.source } (k + 1) j hj hm' hfst'
      have harr : k + 1 + j = k + (j + 1) := by omega
      simp only [harr] at this
      simpa [Ne.symm hc] using this

/-- The dispatch logic itself never emits the finally event: that event is
appended only by the guard, after the outcome is fixed. -/
theorem try_catch_core_no_finally {α : Type} (tc : TryCatch α) :
    Event.finallyRun ∉ (try_catch_core tc).2 := by
  obtain ⟨b, cs, ca, cp, f⟩ := tc
  cases b with
  | ok v => simp [try_catch_core]
  | panicked p =>
    cases p with
    | fault d => cases cp <;> simp [try_catch_core]
    | thrown exc =>
      rcases hr : runTypedClauses cs exc 0 with ⟨r1, r2⟩
      cases r1 with
      | some t =>
        rcases t with ⟨res, i, v⟩
        simp [try_catch_core, hr]
      | none => cases ca <;> simp [try_catch_core, hr]

/-- With the arity check passed, `try_catch` runs the dispatch logic and
appends the finally event when a finally block is present. -/
theorem try_catch_eq {α : Type} (tc : TryCatch α)
    (h : 2 ≤ __count_blocks tc) :
    try_catch tc = Except.ok ((try_catch_core tc).1,
      (try_catch_core tc).2 ++
        if tc.finallyBlock then [Event.finallyRun] else []) := by
  unfold try_catch
  rw [if_neg (by omega)]

/-- On a thrown carrier whose first matching clause (by declared type, in
declaration order) sits at index `i`, the dispatch logic produces that
clause's handler applied to the payload value and a trace whose only catch
event is `typedCatch i`. -/
theorem try_catch_core_first_match {α : Type} (tc : TryCatch α)
    (exc : Thrown) (i : Nat) (h : i < tc.catches.length)
    (hbody : tc.tryBody = TryResult.panicked (PanicPayload.thrown exc))
    (hm : (tc.catches.get ⟨i, h⟩).ty = exc.source.tyId)
    (hfst : ∀ j (hj : j < i),
      (tc.catches.get ⟨j, Nat.lt_trans hj h⟩).ty ≠ exc.source.tyId) :
    try_catch_core tc =
      (Outcome.value ((tc.catches.get ⟨i, h⟩).handler exc.source.val),
        [Event.tryStarted, Event.typedCatch i]) := by
  obtain ⟨b, cs, ca, cp, f⟩ := tc
  subst hbody
  have h1 := runTypedClauses_first_match cs exc 0 i h hm hfst
  rcases hr : runTypedClauses cs exc 0 with ⟨r1, r2⟩
  rw [hr] at h1
  simp only at h1
  subst h1
  simp [try_catch_core, hr]

/-- Inversion: a successful run of `try_catch` is the dispatch logic's
outcome with the finally event appended when a finally block is
present. -/
theorem try_catch_ok_inv {α : Type} (tc : TryCatch α) (o : Outcome α)
    (evs : List Event) (hrun : try_catch tc = Except.ok (o, evs)) :
    o = (try_catch_core tc).1 ∧
      evs = (try_catch_core tc).2 ++
        if tc.finallyBlock then [Event.finallyRun] else [] := by
  unfold try_catch at hrun
  split at hrun
  · exact Except.noConfusion hrun
  · simp only [Except.ok.injEq, Prod.mk.injEq] at hrun
    exact ⟨hrun.1.symm, hrun.2.symm⟩

/-! ### Claim theorems -/

/-- C2: for every construct with a finally block (and passing the arity
check), the run succeeds and its trace contains the finally event exactly
once, as the very last event — i.e. the finally body runs exactly once,
strictly after the construct's outcome (value or re-raise decision) is
fixed and before control leaves the construct, on every exit path (normal
completion, any catch-clause completion, or an unmatched re-raise). -/
theorem finally_runs_exactly_once {α : Type} (tc : TryCatch α)
    (hfin : tc.finallyBlock = true) (hcount : 2 ≤ __count_blocks tc) :
    ∃ o evs, try_catch tc = Except.ok (o, evs) ∧
      evs.count Event.finallyRun = 1 ∧
      evs.getLast? = some Event.finallyRun := by
  refine ⟨(try_catch_core tc).1,
    (try_catch_core tc).2 ++ [Event.finallyRun], ?_, ?_, ?_⟩
  · rw [try_catch_eq tc hcount, hfin]
    simp
  · have hno := try_catch_core_no_finally tc
    rw [List.count_append, List.count_eq_zero.mpr hno]
    simp
  · simp [List.getLast?_concat]

/-- C1: for every `try_catch` construct whose try body throws a value of
runtime type `T`, and whose first typed clause declaring `T` (in
declaration order) is at index `i`, that clause's body executes on the
payload and its result becomes the construct's result; the trace contains
the single catch event `typedCatch i`, so no later clause — even one
declaring the same type — ever executes. -/
theorem typed_dispatch_first_match_wins {α : Type} (tc : TryCatch α)
    (exc : Thrown) (i : Nat) (h : i < tc.catches.length)
    (hbody : tc.tryBody = TryResult.panicked (PanicPayload.thrown exc))
    (hm : (tc.catches.get ⟨i, h⟩).ty = exc.source.tyId)
    (hfst : ∀ j (hj : j < i),
      (tc.catches.get ⟨j, Nat.lt_trans hj h⟩).ty ≠ exc.source.tyId)
    (hcount : 2 ≤ __count_blocks tc) :
    try_catch tc = Except.ok
      (Outcome.value ((tc.catches.get ⟨i, h⟩).handler exc.source.val),
        [Event.tryStarted, Event.typedCatch i] ++
          if tc.finallyBlock then [Event.finallyRun] else []) ∧
    ∀ j, j ≠ i → Event.typedCatch j ∉
      ([Event.tryStarted, Event.typedCatch i] ++
        if tc.finallyBlock then [Event.finallyRun] else []) := by
  constructor
  · rw [try_catch_eq tc hcount,
      try_catch_core_first_match tc exc i h hbody hm hfst]
  · intro j hj
    cases hf : tc.finallyBlock <;> simp [hj]

/-- C4: for every successful run of a construct, the catch-panic clause
runs if and only if the intercepted unwind is an opaque native fault and
the clause exists (so a carrier never reaches it); on an opaque fault no
typed clause and no catch-all clause ever runs; with no catch-panic clause
the fault is re-raised unchanged; and when the clause runs it receives the
fault payload itself. -/
theorem catch_panic_iff_opaque_fault {α : Type} (tc : TryCatch α)
    (o : Outcome α) (evs : List Event)
    (hrun : try_catch tc = Except.ok (o, evs)) :
    (Event.catchPanicRun ∈ evs ↔
      tc.catchPanic.isSome = true ∧
        ∃ d, tc.tryBody = TryResult.panicked (PanicPayload.fault d)) ∧
    (∀ d, tc.tryBody = TryResult.panicked (PanicPayload.fault d) →
      tc.catchPanic = none → o = Outcome.reraise (PanicPayload.fault d)) ∧
    (∀ d, tc.tryBody = TryResult.panicked (PanicPayload.fault d) →
      (∀ i, Event.typedCatch i ∉ evs) ∧ Event.catchAllRun ∉ evs) ∧
    (∀ d hp, tc.tryBody = TryResult.panicked (PanicPayload.fault d) →
      tc.catchPanic = some hp → o = Outcome.value (hp d)) := by
  obtain ⟨ho, hevs⟩ := try_catch_ok_inv tc o evs hrun
  subst ho
  subst hevs
  obtain ⟨b, cs, ca, cp, f⟩ := tc
  cases b with
  | ok v =>
    refine ⟨?_, ?_, ?_, ?_⟩
    · cases f <;> simp [try_catch_core]
    · intro d hd; simp at hd
    · intro d hd; simp at hd
    · intro d hp hd; simp at hd
  | panicked p =>
    cases p with
    | thrown exc =>
      refine ⟨?_, ?_, ?_, ?_⟩
      · rcases hr : runTypedClauses cs exc 0 with ⟨r1, r2⟩
        cases r1 with
        | some t =>
          rcases t with ⟨res, i, w⟩
          cases f <;> simp [try_catch_core, hr]
        | none => cases ca <;> cases f <;> simp [try_catch_core, hr]
      · intro d hd; simp at hd
      · intro d hd; simp at hd
      · intro d hp hd; simp at hd
    | fault d =>
      cases cp with
      | some hp =>
        refine ⟨?_, ?_, ?_, ?_⟩
        · cases f <;> simp [try_catch_core]
        · intro d' hd hcp; simp at hcp
        · intro d' hd
          cases f <;> simp [try_catch_core]
        · intro d' hp' hd hcp
          simp only [TryResult.panicked.injEq, PanicPayload.fault.injEq] at hd
          simp only [Option.some.injEq] at hcp
          subst hd
          subst hcp
          simp [try_catch_core]
      | none =>
        refine ⟨?_, ?_, ?_, ?_⟩
        · cases f <;> simp [try_catch_core]
        · intro d' hd hcp
          simp only [TryResult.panicked.injEq, PanicPayload.fault.injEq] at hd
          subst hd
          simp [try_catch_core]
        · intro d' hd
          cases f <;> simp [try_catch_core]
        · intro d' hp' hd hcp; simp at hcp

/-- C5: for every successful run of a construct, the catch-all-exception
clause runs if and only if it exists, the intercepted unwind is a carrier,
and no typed clause's declared type equals the payload's runtime type;
when it runs it receives the carrier's type-erased payload itself; and
when neither a typed clause nor a catch-all clause handles the carrier, it
is re-raised unchanged. -/
theorem catch_all_iff_no_typed_match {α : Type} (tc : TryCatch α)
    (o : Outcome α) (evs : List Event)
    (hrun : try_catch tc = Except.ok (o, evs)) :
    (Event.catchAllRun ∈ evs ↔
      tc.catchAll.isSome = true ∧
        ∃ exc, tc.tryBody = TryResult.panicked (PanicPayload.thrown exc) ∧
          ∀ c ∈ tc.catches, c.ty ≠ exc.source.tyId) ∧
    (∀ exc, tc.tryBody = TryResult.panicked (PanicPayload.thrown exc) →
      (∀ c ∈ tc.catches, c.ty ≠ exc.source.tyId) →
      (∀ h, tc.catchAll = some h → o = Outcome.value (h exc.source)) ∧
      (tc.catchAll = none →
        o = Outcome.reraise (PanicPayload.thrown exc))) := by
  obtain ⟨ho, hevs⟩ := try_catch_ok_inv tc o evs hrun
  subst ho
  subst hevs
  obtain ⟨b, cs, ca, cp, f⟩ := tc
  cases b with
  | ok v =>
    refine ⟨?_, ?_⟩
    · cases f <;> simp [try_catch_core]
    · intro exc hd; simp at hd
  | panicked p =>
    cases p with
    | fault d =>
      refine ⟨?_, ?_⟩
      · cases cp <;> cases f <;> simp [try_catch_core]
      · intro exc hd; simp at hd
    | thrown exc =>
      have hnone := runTypedClauses_none_iff cs exc 0
      have hpair : runTypedClauses cs exc 0 =
          ((runTypedClauses cs exc 0).1, exc) :=
        Prod.ext_iff.mpr ⟨rfl, runTypedClauses_carrier cs exc 0⟩
      cases hr1 : (runTypedClauses cs exc 0).1 with
      | some t =>
        have hr : runTypedClauses cs exc 0 = (some t, exc) := by
          rw [hpair, hr1]
        rw [hr1] at hnone
        rcases t with ⟨res, i, w⟩
        have hmatch : ¬∀ c ∈ cs, c.ty ≠ exc.source.tyId := by
          intro hall
          exact Option.noConfusion (hnone.mpr hall)
        refine ⟨?_, ?_⟩
        · cases f <;>
            simp only [try_catch_core, hr] <;>
            simp [hmatch]
        · intro exc' hd hall
          simp only [TryResult.panicked.injEq, PanicPayload.thrown.injEq] at hd
          subst hd
          exact absurd hall hmatch
      | none =>
        have hr : runTypedClauses cs exc 0 = (none, exc) := by
          rw [hpair, hr1]
        rw [hr1] at hnone
        have hall : ∀ c ∈ cs, c.ty ≠ exc.source.tyId := hnone.mp rfl
        refine ⟨?_, ?_⟩
        · cases ca <;> cases f <;> simp [try_catch_core, hr, hall] <;>
            exact hall
        · intro exc' hd hall'
          simp only [TryResult.panicked.injEq, PanicPayload.thrown.injEq] at hd
          subst hd
          constructor
          · intro h hca
            subst hca
            simp [try_catch_core, hr]
          · intro hca
            subst hca
            simp [try_catch_core, hr]

/-- C3: the boundary driver `__throw_driver` returns a normally produced
value unchanged; converts an intercepted `Thrown` carrier into a new fatal
panic whose message carries the carrier's `type_name` and `backtrace`; and
resumes an opaque (non-carrier) fault unchanged, with its original
identity, wrapping nothing. -/
theorem throw_driver_boundary {α : Type} :
    (∀ v : α, __throw_driver (TryResult.ok v) =
        Except.ok (DriverResult.value v, 1)) ∧
    (∀ t : Thrown,
        __throw_driver (TryResult.panicked (PanicPayload.thrown t) : TryResult α) =
          Except.ok (DriverResult.fatal
            ("unhandled exception " ++ t.type_name ++ " at " ++ t.backtrace), 1)) ∧
    (∀ d : DynBox,
        __throw_driver (TryResult.panicked (PanicPayload.fault d) : TryResult α) =
          Except.ok (DriverResult.reraise (PanicPayload.fault d), 1)) :=
  ⟨fun _ => rfl, fun _ => rfl, fun _ => rfl⟩

/-- C7: a construct with fewer than two blocks is rejected by the `const`
arity check before anything runs: `try_catch` fails with the no-op message
and never produces an outcome or a trace (in particular the try body never
runs — no execution trace exists at all). -/
theorem noop_construct_rejected {α : Type} (tc : TryCatch α)
    (h : __count_blocks tc < 2) :
    try_catch tc =
        Except.error "Using try \x7b /*code*/ \x7d is equivalent to a no-op" ∧
      ∀ r, try_catch tc ≠ Except.ok r := by
  refine ⟨?_, ?_⟩
  · unfold try_catch
    rw [if_pos h]
  · intro r hr
    unfold try_catch at hr
    rw [if_pos h] at hr
    exact Except.noConfusion hr

/-- C8: a failed typed-match attempt leaves the carrier unchanged — the
payload box is restored into the same carrier and neither `type_name` nor
`backtrace` is ever mutated — so whatever the clause list and however many
clauses fail to match, the carrier observed afterwards (by later clauses,
the catch-all clause, or a re-raise) is the original one. -/
theorem failed_match_preserves_carrier {α : Type} (cs : List (CatchClause α))
    (exc : Thrown) (i : Nat) :
    (runTypedClauses cs exc i).2 = exc ∧
      (runTypedClauses cs exc i).2.source = exc.source ∧
      (runTypedClauses cs exc i).2.type_name = exc.type_name ∧
      (runTypedClauses cs exc i).2.backtrace = exc.backtrace := by
  have h := runTypedClauses_carrier cs exc i
  exact ⟨h, by rw [h], by rw [h], by rw [h]⟩

/-- C10: for every wrapped body, `__throw_driver` invokes it exactly once
and no unchecked operation ever hits its error branch; whenever the inner
`catch_unwind` returns `Ok` (no panic payload), the output slot has been
filled with the body's value, and the caller receives exactly that
value. -/
theorem throw_driver_no_unchecked_miss {α : Type} (body : TryResult α) :
    (∀ e, __throw_driver body ≠ Except.error e) ∧
    (∃ r, __throw_driver body = Except.ok (r, 1)) ∧
    (∀ m out n,
        driverClosureStep (some body) none = Except.ok (m, out, none, n) →
        ∃ v, out = some v ∧ body = TryResult.ok v ∧
          __throw_driver body = Except.ok (DriverResult.value v, n)) ∧
    (∀ v, body = TryResult.ok v →
        __throw_driver body = Except.ok (DriverResult.value v, 1)) := by
  cases body with
  | ok v =>
    refine ⟨?_, ⟨DriverResult.value v, rfl⟩, ?_, ?_⟩
    · intro e he
      exact Except.noConfusion ((rfl :
        __throw_driver (TryResult.ok v) =
          Except.ok (DriverResult.value v, 1)) ▸ he)
    · intro m out n hstep
      simp only [driverClosureStep, Except.ok.injEq, Prod.mk.injEq] at hstep
      exact ⟨v, hstep.2.1.symm, rfl, by rw [← hstep.2.2.2]; rfl⟩
    · intro w hw
      cases hw
      rfl
  | panicked p =>
    cases p with
    | thrown t =>
      refine ⟨?_, ⟨DriverResult.fatal
        ("unhandled exception " ++ t.type_name ++ " at " ++ t.backtrace), rfl⟩,
        ?_, ?_⟩
      · intro e he
        exact Except.noConfusion ((rfl :
          __throw_driver (TryResult.panicked (PanicPayload.thrown t) : TryResult α) =
            Except.ok (DriverResult.fatal
              ("unhandled exception " ++ t.type_name ++ " at " ++ t.backtrace), 1)) ▸ he)
      · intro m out n hstep
        simp only [driverClosureStep, Except.ok.injEq, Prod.mk.injEq] at hstep
        exact absurd hstep.2.2.1 (by simp)
      · intro w hw
        exact TryResult.noConfusion hw
    | fault d =>
      refine ⟨?_, ⟨DriverResult.reraise (PanicPayload.fault d), rfl⟩, ?_, ?_⟩
      · intro e he
        exact Except.noConfusion ((rfl :
          __throw_driver (TryResult.panicked (PanicPayload.fault d) : TryResult α) =
            Except.ok (DriverResult.reraise (PanicPayload.fault d), 1)) ▸ he)
      · intro m out n hstep
        simp only [driverClosureStep, Except.ok.injEq, Prod.mk.injEq] at hstep
        exact absurd hstep.2.2.1 (by simp)
      · intro w hw
        exact TryResult.noConfusion hw

/-- C6: `throw(v)` never completes normally — its behaviour as a block of
code is never `TryResult.ok` — and when the resulting unwind is
intercepted by a construct whose first typed clause declaring `v`'s exact
runtime type sits at index `i`, that clause's pattern is bound to exactly
the thrown payload value (the handler is applied to `x.val`, the value
that transited the unwind with its runtime type identity `x.tyId`
preserved). -/
theorem throw_round_trip {α : Type} :
    (∀ (x : DynBox) (n b : String) (v : α), throw α x n b ≠ TryResult.ok v) ∧
    (∀ (tc : TryCatch α) (x : DynBox) (n b : String) (i : Nat)
        (h : i < tc.catches.length),
      tc.tryBody = throw α x n b →
      (tc.catches.get ⟨i, h⟩).ty = x.tyId →
      (∀ j (hj : j < i), (tc.catches.get ⟨j, Nat.lt_trans hj h⟩).ty ≠ x.tyId) →
      2 ≤ __count_blocks tc →
      try_catch tc = Except.ok
        (Outcome.value ((tc.catches.get ⟨i, h⟩).handler x.val),
          [Event.tryStarted, Event.typedCatch i] ++
            if tc.finallyBlock then [Event.finallyRun] else [])) := by
  constructor
  · intro x n b v hv
    exact TryResult.noConfusion hv
  · intro tc x n b i h hbody hm hfst hcount
    rw [try_catch_eq tc hcount,
      try_catch_core_first_match tc ⟨x, n, b⟩ i h hbody hm hfst]

/-! ### Witnesses -/

/-- A construct whose try body throws a payload of runtime type `2`
(value `7`), with typed clauses declaring types `1`, `2`, `2` in order and
a finally block. -/
def tcW1 : TryCatch Nat :=
  ⟨TryResult.panicked (PanicPayload.thrown ⟨⟨2, 7⟩, "u32", "bt0"⟩),
    [⟨1, fun v => v + 100⟩, ⟨2, fun v => v⟩, ⟨2, fun v => v + 1⟩],
    none, none, true⟩

/-- Witness for C1: on `tcW1` the second clause (index 1, the first
declaring type `2`) fires with the payload `7`; the third clause, though
it declares the same type, never runs. -/
theorem typed_dispatch_first_match_wins_witness :
    try_catch tcW1 = Except.ok (Outcome.value 7,
      [Event.tryStarted, Event.typedCatch 1, Event.finallyRun]) ∧
    Event.typedCatch 2 ∉
      [Event.tryStarted, Event.typedCatch 1, Event.finallyRun] := by
  have h3 : 1 < tcW1.catches.length := by decide
  have hfst : ∀ j (hj : j < 1),
      (tcW1.catches.get ⟨j, Nat.lt_trans hj h3⟩).ty ≠
        (⟨⟨2, 7⟩, "u32", "bt0"⟩ : Thrown).source.tyId := by
    intro j hj
    have hj0 : j = 0 := Nat.lt_one_iff.mp hj
    subst hj0
    exact (by decide : (1 : Nat) ≠ 2)
  have h := typed_dispatch_first_match_wins tcW1 ⟨⟨2, 7⟩, "u32", "bt0"⟩ 1
    h3 rfl rfl hfst (by decide)
  exact ⟨h.1, h.2 2 (by decide)⟩

/-- The try-plus-finally construct of the spec's scenario: try body
returns 42, only a finally block besides. -/
def tcW2 : TryCatch Nat := ⟨TryResult.ok 42, [], none, none, true⟩

/-- Witness for C2: the two-block try/finally construct runs, and its
trace holds the finally event exactly once, last. -/
theorem finally_runs_exactly_once_witness :
    ∃ o evs, try_catch tcW2 = Except.ok (o, evs) ∧
      evs.count Event.finallyRun = 1 ∧
      evs.getLast? = some Event.finallyRun :=
  finally_runs_exactly_once tcW2 rfl (by decide)

/-- A construct whose try body raises an opaque native fault and that has
only a catch-panic clause. -/
def tcW4 : TryCatch Nat :=
  ⟨TryResult.panicked (PanicPayload.fault ⟨9, 3⟩), [], none,
    some (fun d => d.val), false⟩

/-- Witness for C4: on `tcW4` the catch-panic clause runs (the trace holds
its event). -/
theorem catch_panic_iff_opaque_fault_witness :
    Event.catchPanicRun ∈ [Event.tryStarted, Event.catchPanicRun] :=
  (catch_panic_iff_opaque_fault tcW4 (Outcome.value 3)
    [Event.tryStarted, Event.catchPanicRun] rfl).1.mpr
    ⟨rfl, ⟨9, 3⟩, rfl⟩

/-- A construct whose try body throws a payload of runtime type `5` with
one non-matching typed clause (type `1`) and a catch-all clause. -/
def tcW5 : TryCatch Nat :=
  ⟨TryResult.panicked (PanicPayload.thrown ⟨⟨5, 11⟩, "E", "bt5"⟩),
    [⟨1, fun v => v⟩], some (fun d => d.val + 1), none, false⟩

/-- Witness for C5: on `tcW5` no typed clause matches and the catch-all
clause runs (the trace holds its event). -/
theorem catch_all_iff_no_typed_match_witness :
    Event.catchAllRun ∈ [Event.tryStarted, Event.catchAllRun] :=
  (catch_all_iff_no_typed_match tcW5 (Outcome.value 12)
    [Event.tryStarted, Event.catchAllRun] rfl).1.mpr
    ⟨rfl, ⟨⟨5, 11⟩, "E", "bt5"⟩, rfl, by decide⟩

/-- A construct whose try body is `throw` of payload `99` at runtime type
`3`, with one typed clause declaring exactly type `3` whose handler is the
identity, and a finally block. -/
def tcW6 : TryCatch Nat :=
  ⟨throw Nat ⟨3, 99⟩ "A" "bt6", [⟨3, fun v => v⟩], none, none, true⟩

/-- Witness for C6: the thrown value `99` round-trips — the identity
handler of the exact-type clause yields it back unchanged. -/
theorem throw_round_trip_witness :
    try_catch tcW6 = Except.ok (Outcome.value 99,
      [Event.tryStarted, Event.typedCatch 0, Event.finallyRun]) := by
  have h := (@throw_round_trip Nat).2 tcW6 ⟨3, 99⟩ "A" "bt6" 0
    (by decide) rfl rfl
    (fun j hj => absurd hj (Nat.not_lt_zero j)) (by decide)
  exact h

/-- A bare try construct: one block only. -/
def tcW7 : TryCatch Nat := ⟨TryResult.ok 100, [], none, none, false⟩

/-- Witness for C7: the one-block construct is rejected with the no-op
message and never yields an outcome. -/
theorem noop_construct_rejected_witness :
    __count_blocks tcW7 < 2 ∧
      try_catch tcW7 =
        Except.error "Using try \x7b /*code*/ \x7d is equivalent to a no-op" :=
  ⟨by decide, (noop_construct_rejected tcW7 (by decide)).1⟩

/-- Witness for C10: the driver run on a body that returns `5` yields
exactly `5`, with the body invoked once and no unchecked miss. -/
theorem throw_driver_no_unchecked_miss_witness :
    __throw_driver (TryResult.ok (5 : Nat)) =
      Except.ok (DriverResult.value 5, 1) :=
  (throw_driver_no_unchecked_miss (TryResult.ok (5 : Nat))).2.2.2 5 rfl

end RustTryCatch
